import Mathlib

/-!
Verification of the dnsleaktest-tui probing-and-aggregation pipeline.

The development shallowly embeds the two orchestrators of the program:

* the DNS-leak sequential-probe protocol (`src/dns_leak.rs`): session-id
  acquisition, ten fan-out lookups, verdict retrieval, and record enrichment;
* the traceroute orchestrator (`src/trace.rs`): hostname resolution, fixed
  tracer configuration, engine run, and per-TTL reconciliation of the final
  snapshot into the `Hop` table model;

together with the thin `Hostname` wrapper (`src/validation.rs`) and the
entry point (`src/main.rs`).

External collaborators (the HTTP agent, the JSON deserializer, the flag-glyph
lookup of the country-emoji library, the DNS resolver and the trippy tracer
engine) are modelled as explicit function parameters, so theorems quantify
over every possible behaviour at those boundaries.  Machine strings are Lean
`String`s; the request and event logs make the side effects of each
orchestrator observable.
-/

/-- One row of the DNS-leak verdict, as deserialized from the service JSON
(struct `DnsData` in `src/dns_leak.rs`).  `type_field` is the wire field
`type` (one of `ip`, `dns`, `conclusion`). -/
structure DnsData where
  ip : String
  country : String
  country_name : String
  asn : String
  type_field : String
deriving DecidableEq, Repr

/-- The remote leak-test service host (`API_URL` in `src/dns_leak.rs`). -/
def API_URL : String := "bash.ws"

/-- The enrichment pass of `test_dns_leak` (`src/dns_leak.rs:33-39`): every
record's `country_name` is overwritten with the original name, a space, and
the glyph looked up from the record's `country` code, defaulting to the
placeholder `"?"` when the lookup misses.  The external lookup
`country_emoji::flag` is the parameter `flag`. -/
def enrich (flag : String → Option String) (data : List DnsData) : List DnsData :=
  data.map (fun r =>
    { r with country_name := r.country_name ++ " " ++ ((flag r.country).getD "?") })

/-- Relation between a raw record and its enriched form: the display text is
the original name, a space, and a glyph, and the glyph is the placeholder
exactly when the country code is empty or unmapped. -/
def displaySpec (flag : String → Option String) (r r' : DnsData) : Prop :=
  r'.country_name = r.country_name ++ " " ++ ((flag r.country).getD "?")
  ∧ (((flag r.country).getD "?") = "?" ↔ (r.country = "" ∨ flag r.country = none))

/-- Relation between a raw record and its enriched form: every field other
than the country display text is unchanged. -/
def frameSpec (r r' : DnsData) : Prop :=
  r'.ip = r.ip ∧ r'.country = r.country ∧ r'.asn = r.asn
  ∧ r'.type_field = r.type_field

/-- A concrete code-to-glyph mapping used to instantiate witnesses: it maps
exactly the code `"US"`. -/
def usFlag (c : String) : Option String :=
  if c = "US" then some "🇺🇸" else none

/-- The mapping `usFlag` never yields the placeholder glyph. -/
theorem usFlag_no_placeholder : ∀ c g, usFlag c = some g → g ≠ "?" := by
  intro c g h
  unfold usFlag at h
  split at h
  · cases h
    decide
  · exact Option.noConfusion h

/-- Concrete raw verdict rows (a `dns` row and a `conclusion` row) used to
instantiate witnesses. -/
def dataC1 : List DnsData :=
  [⟨"8.8.8.8", "US", "United States", "AS15169", "dns"⟩,
   ⟨"No DNS leak detected", "", "", "", "conclusion"⟩]

/-- C1: for every raw leak record, enrichment sets the country display text
to exactly the original `country_name`, a single space, then the glyph mapped
from the record's `country` code, the glyph being the placeholder `"?"` if
and only if `country` is empty or unmapped; this holds for every record of
the sequence, rows of kind `conclusion` included.  The hypotheses record the
standing properties of the static code-to-glyph mapping: it is undefined on
the empty code and never produces the placeholder itself. -/
theorem C1_enrichment_display (flag : String → Option String) (data : List DnsData)
    (hempty : flag "" = none)
    (hq : ∀ c g, flag c = some g → g ≠ "?") :
    List.Forall₂ (displaySpec flag) data (enrich flag data) := by
  induction data with
  | nil => exact List.Forall₂.nil
  | cons r rs ih =>
    simp only [enrich, List.map_cons]
    refine List.Forall₂.cons ⟨rfl, ?_⟩ ih
    cases hf : flag r.country with
    | none => simp [hf]
    | some g =>
      simp only [Option.getD_some]
      constructor
      · intro hg
        exact absurd hg (hq _ _ hf)
      · rintro (hc | hc)
        · rw [hc, hempty] at hf
          exact Option.noConfusion hf
        · exact Option.noConfusion hc

/-- Witness for C1 at the concrete mapping `usFlag` and rows `dataC1`. -/
theorem C1_enrichment_display_witness :
    List.Forall₂ (displaySpec usFlag) dataC1 (enrich usFlag dataC1) :=
  C1_enrichment_display usFlag dataC1 (by decide) usFlag_no_placeholder

/-- C9: enrichment is a frame-preserving map: the output has the same length
as the input, rows are paired in order, and for each row every field other
than the country display text (`ip`, `country`, `asn`, `type_field`) is
unchanged from the deserialized input. -/
theorem C9_enrich_frame (flag : String → Option String) (data : List DnsData) :
    (enrich flag data).length = data.length
    ∧ List.Forall₂ frameSpec data (enrich flag data) := by
  constructor
  · simp [enrich]
  · induction data with
    | nil => exact List.Forall₂.nil
    | cons r rs ih =>
      simp only [enrich, List.map_cons]
      exact List.Forall₂.cons ⟨rfl, rfl, rfl, rfl⟩ ih

/-- URL of the session-id request (`src/dns_leak.rs:19`). -/
def idUrl : String := "https://" ++ API_URL ++ "/id"

/-- URL of fan-out lookup number `i` for session `id` (`src/dns_leak.rs:25`). -/
def fanUrl (i : Nat) (id : String) : String :=
  "https://" ++ toString i ++ "." ++ id ++ "." ++ API_URL

/-- URL of the verdict request for session `id` (`src/dns_leak.rs:29`). -/
def verdictUrl (id : String) : String :=
  "https://" ++ API_URL ++ "/dnsleak/test/" ++ id ++ "?json"

/-- The leak probe `test_dns_leak` (`src/dns_leak.rs:16-42`).  The HTTP agent
is the parameter `get` (URL to response body), JSON deserialization is
`parse`, and the country-emoji lookup is `flag`.  The first component of the
result is the ordered log of every URL requested; the second is the returned
value.  The ten fan-out requests are issued for indices `0..10` and their
responses are discarded (`let _ = ...` in the source), so `get`'s behaviour
on those URLs is never consulted. -/
def testDnsLeak (flag : String → Option String)
    (get : String → Except String String)
    (parse : String → Except String (List DnsData)) :
    List String × Except String (List DnsData) :=
  match get idUrl with
  | .error e => ([idUrl], .error e)
  | .ok id =>
    let log := idUrl :: ((List.range 10).map (fun i => fanUrl i id) ++ [verdictUrl id])
    match get (verdictUrl id) with
    | .error e => (log, .error e)
    | .ok body =>
      match parse body with
      | .error e => (log, .error e)
      | .ok data => (log, .ok (enrich flag data))

/-- C4: the leak probe runs three strictly ordered phases.  If the session-id
request fails, the probe returns that error and the request log is exactly
the failed id request: no fan-out and no verdict request is issued.  When the
id request succeeds, the log is exactly the id request, then the ten fan-out
lookups indexed 0 through 9 in order, each to `fanUrl i id`, then the verdict
request.  Finally, the responses of the fan-out lookups never affect the
returned value or the log: two agents that agree on the id request and on the
verdict request of the obtained session give identical results, whatever they
answer on the fan-out URLs. -/
theorem C4_three_phases (flag : String → Option String)
    (get get₂ : String → Except String String)
    (parse : String → Except String (List DnsData)) :
    (∀ e, get idUrl = .error e →
      testDnsLeak flag get parse = ([idUrl], .error e))
    ∧ (∀ id, get idUrl = .ok id →
      (testDnsLeak flag get parse).1
        = idUrl :: ((List.range 10).map (fun i => fanUrl i id) ++ [verdictUrl id]))
    ∧ (get idUrl = get₂ idUrl →
      (∀ id, get idUrl = .ok id → get (verdictUrl id) = get₂ (verdictUrl id)) →
      testDnsLeak flag get parse = testDnsLeak flag get₂ parse) := by
  refine ⟨fun e he => ?_, fun id hid => ?_, fun hId hV => ?_⟩
  · simp [testDnsLeak, he]
  · cases hv : get (verdictUrl id) with
    | error e => simp [testDnsLeak, hid, hv]
    | ok body =>
      cases hp : parse body with
      | error e => simp [testDnsLeak, hid, hv, hp]
      | ok data => simp [testDnsLeak, hid, hv, hp]
  · cases hg : get idUrl with
    | error e =>
      have hg₂ : get₂ idUrl = .error e := by rw [← hId]; exact hg
      simp [testDnsLeak, hg, hg₂]
    | ok id =>
      have hg₂ : get₂ idUrl = .ok id := by rw [← hId]; exact hg
      have hv := hV id hg
      simp [testDnsLeak, hg, hg₂, hv]

/-- A concrete agent for the C4 witness: serves the session id `"sess"` and
an empty verdict for it, and fails every other request. -/
def getC4 (u : String) : Except String String :=
  if u = idUrl then .ok "sess"
  else if u = verdictUrl "sess" then .ok "[]"
  else .error "no route"

/-- A concrete agent differing from `getC4` exactly on a fan-out URL. -/
def getC4' (u : String) : Except String String :=
  if u = fanUrl 0 "sess" then .ok "changed" else getC4 u

/-- A concrete deserializer for the C4 witness: the empty verdict parses to
the empty record list. -/
def parseC4 (body : String) : Except String (List DnsData) :=
  if body = "[]" then .ok [] else .error "bad json"

/-- Witness for C4: at the concrete agent `getC4`, the log is exactly the id
request, the ten fan-out URLs for session `"sess"`, and the verdict URL; and
changing only a fan-out response (agent `getC4'`) leaves the result
unchanged. -/
theorem C4_three_phases_witness :
    (testDnsLeak usFlag getC4 parseC4).1
      = idUrl :: ((List.range 10).map (fun i => fanUrl i "sess") ++ [verdictUrl "sess"])
    ∧ testDnsLeak usFlag getC4 parseC4 = testDnsLeak usFlag getC4' parseC4 := by
  have h := C4_three_phases usFlag getC4 getC4' parseC4
  refine ⟨h.2.1 "sess" rfl, h.2.2 rfl ?_⟩
  intro id hid
  have h0 : getC4 idUrl = Except.ok "sess" := rfl
  rw [h0] at hid
  have hsess : id = "sess" := (Except.ok.inj hid).symm
  subst hsess
  rfl

/-- One row of the traceroute table (struct `Hop` in `src/trace.rs:27-32`). -/
structure Hop where
  ttl : Option String
  host : Option String
  address : Option String
  samples : String
deriving DecidableEq, Repr

/-- One per-TTL entry of the tracer engine's final snapshot
(`trippy`'s `Hop`, consumed in `src/trace.rs:104-111`): the probed TTL, the
responding addresses in the engine's reported order, and the round-trip
samples.  Durations are modelled in whole microseconds. -/
structure SnapHop where
  ttl : Nat
  addrs : List String
  samples : List Nat
deriving DecidableEq, Repr

/-- Zero-pads a number below 1000 to three digits. -/
def pad3 (n : Nat) : String :=
  if n < 10 then "00" ++ toString n
  else if n < 100 then "0" ++ toString n
  else toString n

/-- Formats one round-trip sample (in microseconds) as fractional
milliseconds with three decimals, as `format!` with a `.3` precision does in
`src/trace.rs:109` for microsecond-exact durations. -/
def fmtSample (us : Nat) : String :=
  toString (us / 1000) ++ "." ++ pad3 (us % 1000) ++ " ms"

/-- Joins the formatted samples of one snapshot entry with two spaces
(`src/trace.rs:106-110`). -/
def fmtSamples (samples : List Nat) : String :=
  String.intercalate "  " (samples.map fmtSample)

/-- The loop body of reconciliation for one enumerated address
(`src/trace.rs:112-128`): a reverse lookup is performed, and `ttl` is
populated only when the enumeration index is 0. -/
def hopRow (reverseLookup : String → String) (ttl : Nat) (samples : String)
    (p : Nat × String) : Hop :=
  let host := reverseLookup p.2
  if p.1 ≠ 0 then
    { ttl := none, host := some host, address := some p.2, samples := samples }
  else
    { ttl := some (toString ttl), host := some host, address := some p.2,
      samples := samples }

/-- The rows emitted for one snapshot entry (`src/trace.rs:104-137`): when
the entry reports at least one address, one row per address in reported
order; otherwise a single row with `ttl` set and `host`/`address` empty. -/
def emitHop (reverseLookup : String → String) (h : SnapHop) : List Hop :=
  let samples := fmtSamples h.samples
  if 0 < h.addrs.length then
    h.addrs.enum.map (hopRow reverseLookup h.ttl samples)
  else
    [{ ttl := some (toString h.ttl), host := none, address := none,
       samples := samples }]

/-- Snapshot reconciliation (`src/trace.rs:103-138`): the rows of every
snapshot entry are pushed in order onto one accumulating vector. -/
def reconcile (reverseLookup : String → String) (hops : List SnapHop) :
    List Hop :=
  hops.foldl (fun acc h => acc ++ emitHop reverseLookup h) []

/-- The accumulating fold of `reconcile` appends the per-entry blocks. -/
theorem reconcile_foldl_eq (reverseLookup : String → String)
    (hops : List SnapHop) (acc : List Hop) :
    hops.foldl (fun acc h => acc ++ emitHop reverseLookup h) acc
      = acc ++ (hops.map (emitHop reverseLookup)).flatten := by
  induction hops generalizing acc with
  | nil => simp
  | cons h t ih => simp [List.foldl_cons, ih, List.append_assoc]

/-- A row built at a nonzero enumeration index has no `ttl`. -/
theorem hopRow_ttl_of_ne (reverseLookup : String → String) (t : Nat)
    (s : String) (p : Nat × String) (hp : p.1 ≠ 0) :
    (hopRow reverseLookup t s p).ttl = none := by
  simp [hopRow, hp]

/-- Every row carries the address it was built from. -/
theorem hopRow_address (reverseLookup : String → String) (t : Nat)
    (s : String) (p : Nat × String) :
    (hopRow reverseLookup t s p).address = some p.2 := by
  unfold hopRow
  split <;> rfl

/-- The `ttl` column of the rows built from an enumeration starting at a
positive index is all-blank. -/
theorem map_ttl_enumFrom (reverseLookup : String → String) (t : Nat)
    (s : String) (n : Nat) (rest : List String) :
    (List.enumFrom (n + 1) rest).map
        (fun p => (hopRow reverseLookup t s p).ttl)
      = List.replicate rest.length none := by
  induction rest generalizing n with
  | nil => rfl
  | cons a as ih =>
    simp only [List.enumFrom, List.map_cons, List.length_cons,
      List.replicate_succ]
    exact congrArg₂ _ (hopRow_ttl_of_ne reverseLookup t s _ (Nat.succ_ne_zero n))
      (ih (n + 1))

/-- Pairing with indices and then dropping them to an optional address is
plain `map some`. -/
theorem enumFrom_map_snd_some (l : List String) (n : Nat) :
    (List.enumFrom n l).map (fun p => some p.2) = l.map some := by
  induction l generalizing n with
  | nil => rfl
  | cons a as ih => simp [List.enumFrom, ih]

/-- C2: reconciliation emits, for a snapshot entry whose hop reports `k`
addresses, exactly `max k 1` rows: when `k = 0`, a single row with `ttl` set
and `host`/`address` empty; when `k ≥ 1`, exactly `k` rows carrying the
engine's reported addresses in order, with `ttl` populated on the first row
only and blank on the other `k - 1` rows.  The whole output is the ordered
concatenation of these per-entry blocks, so no TTL present in the snapshot is
dropped. -/
theorem C2_reconcile_shape (reverseLookup : String → String)
    (hops : List SnapHop) (h : SnapHop) :
    reconcile reverseLookup hops = (hops.map (emitHop reverseLookup)).flatten
    ∧ (emitHop reverseLookup h).length = max h.addrs.length 1
    ∧ (h.addrs.length = 0 →
        emitHop reverseLookup h
          = [{ ttl := some (toString h.ttl), host := none, address := none,
               samples := fmtSamples h.samples }])
    ∧ (1 ≤ h.addrs.length →
        (emitHop reverseLookup h).map Hop.address = h.addrs.map some
        ∧ (emitHop reverseLookup h).map Hop.ttl
            = some (toString h.ttl)
                :: List.replicate (h.addrs.length - 1) none) := by
  refine ⟨reconcile_foldl_eq reverseLookup hops [], ?_, ?_, ?_⟩
  · cases haddrs : h.addrs with
    | nil => simp [emitHop, haddrs]
    | cons a as =>
      simp [emitHop, haddrs, List.enum_length, Nat.max_eq_left,
        Nat.succ_le_succ (Nat.zero_le as.length)]
  · intro hk
    have haddrs : h.addrs = [] := List.length_eq_zero.mp hk
    simp [emitHop, haddrs]
  · intro hk
    cases haddrs : h.addrs with
    | nil => rw [haddrs] at hk; exact absurd hk (by decide)
    | cons a as =>
      constructor
      · simp only [emitHop, haddrs, List.length_cons,
          Nat.zero_lt_succ, if_pos, List.map_map]
        have hcomp : (Hop.address ∘ hopRow reverseLookup h.ttl (fmtSamples h.samples))
            = fun p : Nat × String => some p.2 := by
          funext p
          exact hopRow_address reverseLookup h.ttl (fmtSamples h.samples) p
        rw [hcomp]
        simp only [List.enum]
        rw [enumFrom_map_snd_some]
      · simp only [emitHop, haddrs, List.length_cons,
          Nat.zero_lt_succ, if_pos, List.map_map, List.enum]
        simp only [List.enumFrom, List.map_cons, Function.comp_def]
        rw [map_ttl_enumFrom reverseLookup h.ttl (fmtSamples h.samples) 0 as]
        simp [hopRow]

/-- Witness for C2 at two concrete snapshot entries: one with two addresses
(two rows, `ttl` only on the first) and one with none (a single blank row
with `ttl` set). -/
theorem C2_reconcile_shape_witness :
    (emitHop (fun a => a) ⟨7, ["1.1.1.1", "2.2.2.2"], [1500]⟩).map Hop.ttl
      = [some "7", none]
    ∧ emitHop (fun a => a) ⟨9, [], []⟩
      = [{ ttl := some "9", host := none, address := none, samples := "" }] := by
  constructor
  · have h₁ := (C2_reconcile_shape (fun a => a) []
      ⟨7, ["1.1.1.1", "2.2.2.2"], [1500]⟩).2.2.2 (by decide)
    rw [h₁.2]
    decide
  · have h₂ := (C2_reconcile_shape (fun a => a) [] ⟨9, [], []⟩).2.2.1 rfl
    rw [h₂]
    decide

/-- Probe transport protocol (`trippy::core::Protocol`). -/
inductive Protocol
  | icmp
  | udp
  | tcp
deriving DecidableEq, Repr

/-- Probe port strategy (`trippy::core::PortDirection`): which of the two
ports is held fixed across probes. -/
inductive PortDirection
  | noPort
  | fixedSrc (port : Nat)
  | fixedDest (port : Nat)
  | fixedBoth (src dest : Nat)
deriving DecidableEq, Repr

/-- `PortDirection::new_fixed_src`: hold the source port fixed. -/
def PortDirection.new_fixed_src (port : Nat) : PortDirection :=
  .fixedSrc port

/-- `PortDirection::new_fixed_dest`: hold the destination port fixed. -/
def PortDirection.new_fixed_dest (port : Nat) : PortDirection :=
  .fixedDest port

/-- The tracer parameters set on the builder (`src/trace.rs:82-95`).
Durations are in milliseconds. -/
structure TracerConfig where
  interface : Option String
  sourceAddr : Option String
  protocol : Protocol
  portDirection : PortDirection
  packetSize : Nat
  firstTtl : Nat
  maxTtl : Nat
  tos : Nat
  maxFlows : Nat
  maxRounds : Option Nat
  minRoundDurationMs : Nat
  maxRoundDurationMs : Nat
deriving DecidableEq, Repr

/-- The configuration built by `traceroute` (`src/trace.rs:53-95`): the local
constants `port = 33434`, `first_ttl = 1`, `max_ttl = 64`, `nqueries = 3`,
`tos = 0`, `pausemecs = 100`, with `port_direction =
PortDirection::new_fixed_src(port)`, applied to the builder. -/
def tracerouteConfig : TracerConfig :=
  { interface := none
    sourceAddr := none
    protocol := .udp
    portDirection := PortDirection.new_fixed_src 33434
    packetSize := 52
    firstTtl := 1
    maxTtl := 64
    tos := 0
    maxFlows := 1
    maxRounds := some 3
    minRoundDurationMs := 100
    maxRoundDurationMs := 100 }

/-- The tracer parameters exactly as the specification words them, for
comparison with `tracerouteConfig`: UDP transport, destination-port-fixed
addressing at port 33434, packet size 52, first TTL 1, max TTL 64, 3 rounds,
a single flow, both round-spacing bounds 100 ms, type-of-service 0. -/
def specConfigC3 : TracerConfig :=
  { interface := none
    sourceAddr := none
    protocol := .udp
    portDirection := PortDirection.new_fixed_dest 33434
    packetSize := 52
    firstTtl := 1
    maxTtl := 64
    tos := 0
    maxFlows := 1
    maxRounds := some 3
    minRoundDurationMs := 100
    maxRoundDurationMs := 100 }

/-- The tracer engine's final snapshot (`trippy`'s `snapshot()`, consumed in
`src/trace.rs:98-104`): an optional engine-level error and the per-TTL
entries. -/
structure Snapshot where
  error : Option String
  hops : List SnapHop
deriving DecidableEq, Repr

/-- The external capabilities consumed by `traceroute`: forward resolution
(`DnsResolver::lookup`), the built tracer driven to completion and asked for
its snapshot (`Builder::build` + `Tracer::run` + `snapshot`, collapsed into
one fallible call), and reverse resolution (`reverse_lookup`, which never
fails observably). -/
structure TraceEnv where
  lookup : String → Except Unit (List String)
  runTracer : String → TracerConfig → Except String Snapshot
  reverseLookup : String → String

/-- Observable side effects of one `traceroute` call. -/
inductive TraceEvent
  | lookupCalled (hostname : String)
  | warned (msg : String)
  | tracerRun (addr : String) (cfg : TracerConfig)
deriving DecidableEq, Repr

/-- The traceroute result (struct `TraceData` in `src/trace.rs:6-9`). -/
structure TraceData where
  summary : String
  hops : List Hop
deriving DecidableEq, Repr

/-- The unknown-host error text (`src/trace.rs:65,70-73`). -/
def unknownHostMsg (hostname : String) : String :=
  "traceroute: unknown host " ++ hostname

/-- The engine-failure error text (`src/trace.rs:100`). -/
def engineFailureMsg (detail : String) : String :=
  "error: " ++ detail

/-- The multiple-address warning text (`src/trace.rs:77`). -/
def multiAddrWarning (hostname addr : String) : String :=
  "traceroute: Warning: " ++ hostname ++ " has multiple addresses; using "
    ++ addr

/-- The fixed-format summary (`src/trace.rs:140-146`), built from the target
hostname, the resolved address, and the configured max TTL and packet
size. -/
def mkSummary (hostname addr : String) : String :=
  "Traceroute to " ++ hostname ++ " (" ++ addr ++ "), "
    ++ toString tracerouteConfig.maxTtl ++ " hops max, "
    ++ toString tracerouteConfig.packetSize ++ " byte packets"

/-- The run of `traceroute` after an address has been selected
(`src/trace.rs:82-148`): build and drive the tracer, fail on an engine error
or an error in the final snapshot, otherwise reconcile and summarize. -/
def tracerPhase (env : TraceEnv) (hostname addr : String)
    (log : List TraceEvent) : List TraceEvent × Except String TraceData :=
  let log := log ++ [TraceEvent.tracerRun addr tracerouteConfig]
  match env.runTracer addr tracerouteConfig with
  | .error e => (log, .error e)
  | .ok snapshot =>
    match snapshot.error with
    | some err => (log, .error (engineFailureMsg err))
    | none =>
      (log, .ok { summary := mkSummary hostname addr
                  hops := reconcile env.reverseLookup snapshot.hops })

/-- The traceroute orchestrator (`src/trace.rs:52-149`).  The first component
of the result is the ordered log of observable effects; the second is the
returned value.  Resolution failure or an empty address list yields the
unknown-host error; a single address is used as is; with several addresses a
warning is printed and the first is used. -/
def traceroute (env : TraceEnv) (hostname : String) :
    List TraceEvent × Except String TraceData :=
  match env.lookup hostname with
  | .error _ => ([.lookupCalled hostname], .error (unknownHostMsg hostname))
  | .ok addrs =>
    match addrs with
    | [] => ([.lookupCalled hostname], .error (unknownHostMsg hostname))
    | [addr] => tracerPhase env hostname addr [.lookupCalled hostname]
    | addr :: _ :: _ =>
      tracerPhase env hostname addr
        [.lookupCalled hostname, .warned (multiAddrWarning hostname addr)]

/-- Whatever the engine answers, the run phase logs exactly one tracer
invocation, carrying `tracerouteConfig`. -/
theorem tracerPhase_log (env : TraceEnv) (hostname addr : String)
    (log : List TraceEvent) :
    (tracerPhase env hostname addr log).1
      = log ++ [TraceEvent.tracerRun addr tracerouteConfig] := by
  unfold tracerPhase
  cases env.runTracer addr tracerouteConfig with
  | error e => rfl
  | ok snapshot =>
    cases h : snapshot.error with
    | none => simp [h]
    | some err => simp [h]

/-- C5: if resolution yields zero addresses, `traceroute` returns the
unknown-host error, the only observable effect is the lookup itself, and in
particular the tracer is never invoked. -/
theorem C5_unknown_host (env : TraceEnv) (hostname : String)
    (hres : env.lookup hostname = .ok []) :
    traceroute env hostname
      = ([.lookupCalled hostname], .error (unknownHostMsg hostname))
    ∧ ∀ a cfg, TraceEvent.tracerRun a cfg ∉ (traceroute env hostname).1 := by
  have h : traceroute env hostname
      = ([.lookupCalled hostname], .error (unknownHostMsg hostname)) := by
    simp [traceroute, hres]
  refine ⟨h, fun a cfg => ?_⟩
  rw [h]
  simp

/-- A resolver environment yielding no address, for the C5 witness. -/
def envC5 : TraceEnv :=
  { lookup := fun _ => .ok []
    runTracer := fun _ _ => .error "unused"
    reverseLookup := fun a => a }

/-- Witness for C5 at the concrete environment `envC5`. -/
theorem C5_unknown_host_witness :
    traceroute envC5 "example.com"
      = ([.lookupCalled "example.com"],
         .error (unknownHostMsg "example.com")) :=
  (C5_unknown_host envC5 "example.com" rfl).1

/-- C6: when resolution yields the two-address list `[A, B]`, `traceroute`
logs a non-fatal warning, invokes the tracer on the first address `A`, and —
when the engine itself succeeds — still completes successfully, with the
summary built from `A`. -/
theorem C6_multiple_addresses (env : TraceEnv) (hostname A B : String)
    (rest : List String) (snap : Snapshot)
    (hres : env.lookup hostname = .ok (A :: B :: rest))
    (hrun : env.runTracer A tracerouteConfig = .ok snap)
    (herr : snap.error = none) :
    traceroute env hostname
      = ([.lookupCalled hostname, .warned (multiAddrWarning hostname A),
          .tracerRun A tracerouteConfig],
         .ok { summary := mkSummary hostname A
               hops := reconcile env.reverseLookup snap.hops }) := by
  simp [traceroute, hres, tracerPhase, hrun, herr]

/-- A two-address environment with a quiet engine, for the C6 witness. -/
def envC6 : TraceEnv :=
  { lookup := fun _ => .ok ["10.0.0.1", "10.0.0.2"]
    runTracer := fun _ _ => .ok { error := none, hops := [] }
    reverseLookup := fun a => a }

/-- Witness for C6 at the concrete environment `envC6`: the first address is
selected and the run succeeds. -/
theorem C6_multiple_addresses_witness :
    traceroute envC6 "example.com"
      = ([.lookupCalled "example.com",
          .warned (multiAddrWarning "example.com" "10.0.0.1"),
          .tracerRun "10.0.0.1" tracerouteConfig],
         .ok { summary := mkSummary "example.com" "10.0.0.1", hops := [] }) := by
  have h := C6_multiple_addresses envC6 "example.com" "10.0.0.1" "10.0.0.2"
    [] { error := none, hops := [] } rfl rfl rfl
  rw [h]
  rfl

/-- C7: if the tracer's final snapshot reports an engine-level error string,
`traceroute` returns the engine-failure error carrying that detail and
produces no partial `TraceData` value. -/
theorem C7_engine_failure (env : TraceEnv) (hostname addr detail : String)
    (rest : List String) (snap : Snapshot)
    (hres : env.lookup hostname = .ok (addr :: rest))
    (hrun : env.runTracer addr tracerouteConfig = .ok snap)
    (herr : snap.error = some detail) :
    (traceroute env hostname).2 = .error (engineFailureMsg detail)
    ∧ ∀ td, (traceroute env hostname).2 ≠ .ok td := by
  have h : (traceroute env hostname).2 = .error (engineFailureMsg detail) := by
    cases rest with
    | nil => simp [traceroute, hres, tracerPhase, hrun, herr]
    | cons b rest' => simp [traceroute, hres, tracerPhase, hrun, herr]
  refine ⟨h, fun td => ?_⟩
  rw [h]
  simp

/-- An environment whose engine snapshot carries an error, for the C7
witness. -/
def envC7 : TraceEnv :=
  { lookup := fun _ => .ok ["10.0.0.1"]
    runTracer := fun _ _ =>
      .ok { error := some "socket permission denied", hops := [] }
    reverseLookup := fun a => a }

/-- Witness for C7 at the concrete environment `envC7`, with the scenario
detail string of the specification. -/
theorem C7_engine_failure_witness :
    (traceroute envC7 "example.com").2
      = .error (engineFailureMsg "socket permission denied") :=
  (C7_engine_failure envC7 "example.com" "10.0.0.1" "socket permission denied"
    [] { error := some "socket permission denied", hops := [] } rfl rfl rfl).1

/-- C3 (amended): every tracer invocation made by `traceroute`, for every
environment and hostname, carries exactly the compile-time configuration
`tracerouteConfig`: UDP transport, source-port-fixed addressing at port
33434, probe packet size 52 bytes, first TTL 1, max TTL 64, 3 rounds, a
single flow, minimum and maximum inter-round spacing both 100 ms, and
type-of-service 0. -/
theorem C3_fixed_parameters (env : TraceEnv) (hostname a : String)
    (cfg : TracerConfig)
    (hmem : TraceEvent.tracerRun a cfg ∈ (traceroute env hostname).1) :
    cfg = tracerouteConfig
    ∧ tracerouteConfig =
        { interface := none
          sourceAddr := none
          protocol := .udp
          portDirection := .fixedSrc 33434
          packetSize := 52
          firstTtl := 1
          maxTtl := 64
          tos := 0
          maxFlows := 1
          maxRounds := some 3
          minRoundDurationMs := 100
          maxRoundDurationMs := 100 } := by
  refine ⟨?_, rfl⟩
  unfold traceroute at hmem
  cases hres : env.lookup hostname with
  | error e =>
    rw [hres] at hmem
    simp at hmem
  | ok addrs =>
    rw [hres] at hmem
    cases addrs with
    | nil => simp at hmem
    | cons a1 rest =>
      cases rest with
      | nil =>
        simp only [tracerPhase_log] at hmem
        simp at hmem
        exact hmem.2
      | cons a2 rest' =>
        simp only [tracerPhase_log] at hmem
        simp at hmem
        exact hmem.2

/-- A single-address environment with a quiet engine, used to exhibit a
tracer invocation. -/
def envC3 : TraceEnv :=
  { lookup := fun _ => .ok ["93.184.216.34"]
    runTracer := fun _ _ => .ok { error := none, hops := [] }
    reverseLookup := fun a => a }

/-- Counterexample for C3 as stated: the orchestrator does invoke the tracer
with `tracerouteConfig`, and that configuration differs from the
specification's wording, which fixes the destination port: the code fixes the
source port at 33434 (`PortDirection::new_fixed_src`), not the destination
port. -/
theorem C3_counterexample :
    TraceEvent.tracerRun "93.184.216.34" tracerouteConfig
        ∈ (traceroute envC3 "example.com").1
    ∧ tracerouteConfig ≠ specConfigC3
    ∧ tracerouteConfig.portDirection = PortDirection.fixedSrc 33434
    ∧ specConfigC3.portDirection = PortDirection.fixedDest 33434 := by
  refine ⟨?_, by decide, rfl, rfl⟩
  simp [traceroute, envC3, tracerPhase]

/-- Witness for the amended C3 at the concrete environment `envC3`. -/
theorem C3_fixed_parameters_witness :
    tracerouteConfig = tracerouteConfig
    ∧ tracerouteConfig =
        { interface := none
          sourceAddr := none
          protocol := .udp
          portDirection := .fixedSrc 33434
          packetSize := 52
          firstTtl := 1
          maxTtl := 64
          tos := 0
          maxFlows := 1
          maxRounds := some 3
          minRoundDurationMs := 100
          maxRoundDurationMs := 100 } :=
  C3_fixed_parameters envC3 "example.com" "93.184.216.34" tracerouteConfig
    (by simp [traceroute, envC3, tracerPhase])

/-- The traceroute target chosen by the entry point as a function of the
command line (`main` in `src/main.rs:304-311`): `main` reads no command-line
arguments at all and calls `traceroute("discord.com")` with the hostname
hard-coded, so the target is `"discord.com"` whatever arguments the process
receives. -/
def mainTarget (_args : List String) : String := "discord.com"

/-- Counterexample for C8 as stated: no flag selects the target — passing a
candidate flag, or a bare hostname, leaves the target at the hard-coded
`"discord.com"`, which differs from the requested hostname. -/
theorem C8_counterexample :
    mainTarget ["--host", "example.com"] = "discord.com"
    ∧ mainTarget ["example.com"] = "discord.com"
    ∧ "discord.com" ≠ ("example.com" : String) :=
  ⟨rfl, rfl, by decide⟩

/-- C8 (amended): the program's CLI accepts no target flag; for every
argument list the traceroute target is the hard-coded `discord.com`. -/
theorem C8_hardcoded_target (args : List String) :
    mainTarget args = "discord.com" := rfl

/-- The hostname wrapper (`src/validation.rs:3-18`): construction stores the
given string unchanged (the source carries a TODO note that validation is
not yet performed). -/
structure Hostname where
  hostname : String
deriving DecidableEq, Repr

/-- `Hostname::new` (`src/validation.rs:9-13`). -/
def Hostname.new (hostname : String) : Hostname :=
  { hostname := hostname }

/-- The `Display` implementation for `Hostname` (`src/validation.rs:20-24`):
it writes the stored string verbatim. -/
def Hostname.display (h : Hostname) : String := h.hostname

/-- C10: `Hostname::new` performs no validation or normalization: for every
string `s`, empty or syntactically invalid hostnames included, the `hostname`
accessor returns exactly `s` and displaying the wrapper yields exactly
`s`. -/
theorem C10_hostname_identity (s : String) :
    (Hostname.new s).hostname = s ∧ (Hostname.new s).display = s :=
  ⟨rfl, rfl⟩
